import Mathlib

/-!
Verification of the Identity Resolution & Cross-Registry Aggregation Engine
of the propplyai/agent4NYC repository.

The Python sources are shallowly embedded:
* rows returned by the Socrata registry are association lists from column
  names to optional string values (a Python `dict.get` that may yield `None`);
* the network is an oracle `Query → Option (List Row)`: `none` models a
  transport failure (the registry client swallows it and returns `None`),
  `some rows` a successful response;
* Python floats are modelled by `ℚ` (every constant appearing in the scoring
  arithmetic — 0.3, 0.2, 0.25, integer penalties — is exactly representable
  in binary floating point up to the claims considered, so `ℚ` is faithful);
* `datetime.now()` values are passed in as explicit parameters.
-/

/-- A loosely-typed registry row: a Python dict from column name to optional
string value, as the comprehensive compliance script consumes it. -/
def Row : Type := List (String × Option String)

instance : DecidableEq Row := by unfold Row; infer_instance

/-- Python `dict.get(key)`: `None` both when the key is missing and when it is
present with value `None`. -/
def rowGet (r : Row) (key : String) : Option String :=
  match r.find? (fun p => p.1 == key) with
  | some p => p.2
  | none => none

/-- Python truthiness of an `Optional[str]`: `None` and the empty string are
falsy, every other string is truthy. -/
def truthy : Option String → Bool
  | none => false
  | some s => s ≠ ""

/-- One atom of a SoQL `$where` clause as the scripts build them by string
interpolation: `eq f v` stands for `f = 'v'`, `like f v` for
`f LIKE '%v%'` (including the variants that wrap the column in `UPPER(...)`). -/
inductive FilterAtom where
  | eq (field : String) (value : String)
  | like (field : String) (value : String)
  deriving DecidableEq, Repr

/-- The column name an atom filters on. -/
def FilterAtom.field : FilterAtom → String
  | .eq f _ => f
  | .like f _ => f

/-- One registry client call as issued by `NYCOpenDataClient.get_data`:
logical dataset key, conjunction of filter atoms (the `$where` clause),
projection, sort and row limit. -/
structure Query where
  dataset : String
  filter : List FilterAtom
  selectCols : List String
  orderBy : Option String
  limit : Nat
  deriving DecidableEq, Repr

/-- The registry network as seen through `get_data`: `none` models a transport
failure (`get_data` catches `RequestException` and returns `None`), `some rows`
a successful response body. -/
def Oracle : Type := Query → Option (List Row)

/-- `PropertyIdentifiers` dataclass: canonical identifiers of one property. -/
structure PropertyIdentifiers where
  address : String
  bin : Option String := none
  bbl : Option String := none
  borough : Option String := none
  block : Option String := none
  lot : Option String := none
  zip_code : Option String := none
  deriving DecidableEq, Repr

/-- `ComplianceRecord` dataclass with its field defaults.  The raw-data fields
hold the cleaned row lists (the Python serializes them to JSON strings at this
point; serialization is irrelevant to every claim considered). -/
structure ComplianceRecord where
  address : String
  bin : Option String := none
  bbl : Option String := none
  borough : Option String := none
  block : Option String := none
  lot : Option String := none
  zip_code : Option String := none
  hpd_violations_total : Nat := 0
  hpd_violations_active : Nat := 0
  dob_violations_total : Nat := 0
  dob_violations_active : Nat := 0
  elevator_devices_total : Nat := 0
  elevator_devices_active : Nat := 0
  boiler_devices_total : Nat := 0
  electrical_permits_total : Nat := 0
  electrical_permits_active : Nat := 0
  hpd_compliance_score : ℚ := 100
  dob_compliance_score : ℚ := 100
  elevator_compliance_score : ℚ := 100
  electrical_compliance_score : ℚ := 100
  overall_compliance_score : ℚ := 100
  hpd_violations_data : List Row := []
  dob_violations_data : List Row := []
  elevator_data : List Row := []
  boiler_data : List Row := []
  electrical_data : List Row := []
  processed_at : String := ""
  data_sources : String := ""
  deriving DecidableEq

/-- The `compliance_data` dict initialized in
`gather_comprehensive_compliance_data`: one raw row list per category. -/
structure GatheredData where
  hpd_violations : List Row := []
  dob_violations : List Row := []
  elevator_inspections : List Row := []
  boiler_inspections : List Row := []
  certificate_of_occupancy : List Row := []
  electrical_permits : List Row := []
  deriving DecidableEq

/-- `v.get('violationstatus') in ['Open', 'ACTIVE']` — active HPD violation. -/
def hpdIsActive (v : Row) : Bool :=
  match rowGet v "violationstatus" with
  | some s => s == "Open" || s == "ACTIVE"
  | none => false

/-- `not v.get('disposition_comments')` — active DOB violation. -/
def dobIsActive (v : Row) : Bool :=
  !truthy (rowGet v "disposition_comments")

/-- `e.get('device_status') == 'Active'` — active elevator device. -/
def elevatorIsActive (e : Row) : Bool :=
  rowGet e "device_status" == some "Active"

/-- `e.get('filing_status') in ['Approved', 'Job in Process', 'Active',
'Permit Issued']` — active electrical permit. -/
def electricalIsActive (e : Row) : Bool :=
  match rowGet e "filing_status" with
  | some s => s == "Approved" || s == "Job in Process" || s == "Active" || s == "Permit Issued"
  | none => false

/-- `e.get('filing_date') and strptime(e['filing_date'][:10], '%Y-%m-%d').year
>= now.year - 2`: the year is the leading 4-digit field of the date string.
(`y + 2 ≥ currentYear` is `y ≥ currentYear - 2` without natural truncation;
a string `strptime` cannot parse is treated as not recent.) -/
def electricalIsRecent (currentYear : Nat) (e : Row) : Bool :=
  match rowGet e "filing_date" with
  | some s =>
      s ≠ "" &&
      (match (String.mk (s.toList.take 4)).toNat? with
       | some y => y + 2 ≥ currentYear
       | none => false)
  | none => false

/-- `clean_data_for_json` on a single value: string `nan` (any case) becomes
`None`; over `Option String` values the `None`/`math.isnan` branches collapse
to the identity. -/
def cleanValue : Option String → Option String
  | none => none
  | some s => if s.toLower == "nan" then none else some s

/-- `clean_data_for_json` on one row. -/
def cleanRow (r : Row) : Row :=
  (r : List (String × Option String)).map (fun p => (p.1, cleanValue p.2))

/-- `clean_data_for_json`: replace NaN-like values with `None` in every row. -/
def clean_data_for_json (data : List Row) : List Row :=
  data.map cleanRow

/-- `create_compliance_record`: counts, per-category scores, fixed-weight
overall score and record assembly, exactly as in
`comprehensive_property_compliance.py`.  `currentYear` stands for
`datetime.now().year`, `now` for `datetime.now().isoformat()`. -/
def create_compliance_record (identifiers : PropertyIdentifiers)
    (compliance_data : GatheredData) (currentYear : Nat) (now : String) :
    ComplianceRecord :=
  let hpd_total := compliance_data.hpd_violations.length
  let hpd_active := (compliance_data.hpd_violations.filter hpdIsActive).length
  let dob_total := compliance_data.dob_violations.length
  let dob_active := (compliance_data.dob_violations.filter dobIsActive).length
  let elevator_total := compliance_data.elevator_inspections.length
  let elevator_active :=
    (compliance_data.elevator_inspections.filter elevatorIsActive).length
  let boiler_total := compliance_data.boiler_inspections.length
  let electrical_total := compliance_data.electrical_permits.length
  let electrical_active :=
    (compliance_data.electrical_permits.filter electricalIsActive).length
  let hpd_score : ℚ :=
    if hpd_total > 0 then max 0 (100 - (hpd_active : ℚ) * 10) else 100
  let dob_score : ℚ :=
    if dob_total > 0 then max 0 (100 - (dob_active : ℚ) * 15) else 100
  let elevator_score : ℚ :=
    if elevator_total > 0 then (elevator_active : ℚ) / (elevator_total : ℚ) * 100
    else 100
  let electrical_score : ℚ :=
    if electrical_total > 0 then
      let recent_permits :=
        (compliance_data.electrical_permits.filter
          (electricalIsRecent currentYear)).length
      if recent_permits = 0 then 70
      else if electrical_active > 0 then 90
      else 100
    else 85
  let overall_score : ℚ :=
    hpd_score * 0.3 + dob_score * 0.3 + elevator_score * 0.2 +
      electrical_score * 0.2
  { address := identifiers.address
    bin := identifiers.bin
    bbl := identifiers.bbl
    borough := identifiers.borough
    block := identifiers.block
    lot := identifiers.lot
    zip_code := identifiers.zip_code
    hpd_violations_total := hpd_total
    hpd_violations_active := hpd_active
    dob_violations_total := dob_total
    dob_violations_active := dob_active
    elevator_devices_total := elevator_total
    elevator_devices_active := elevator_active
    boiler_devices_total := boiler_total
    electrical_permits_total := electrical_total
    electrical_permits_active := electrical_active
    hpd_compliance_score := hpd_score
    dob_compliance_score := dob_score
    elevator_compliance_score := elevator_score
    electrical_compliance_score := electrical_score
    overall_compliance_score := overall_score
    hpd_violations_data := clean_data_for_json compliance_data.hpd_violations
    dob_violations_data := clean_data_for_json compliance_data.dob_violations
    elevator_data := clean_data_for_json compliance_data.elevator_inspections
    boiler_data := clean_data_for_json compliance_data.boiler_inspections
    electrical_data := clean_data_for_json compliance_data.electrical_permits
    processed_at := now
    data_sources := "NYC_Open_Data,NYC_Planning_GeoSearch" }

/-- `create_empty_record`: the record produced when identity resolution fails;
every count/score field keeps its dataclass default. -/
def create_empty_record (address : String) (now : String) : ComplianceRecord :=
  { address := address
    bin := none
    bbl := none
    borough := none
    block := none
    lot := none
    zip_code := none
    processed_at := now
    data_sources := "FAILED" }

/-! ## The `address_to_supabase.py` variant of gathering and scoring -/

/-- The `compliance_data` dict of `AddressToSupabaseProcessor`: per-category
raw row lists (fire-safety and cooling-tower data are gathered but never
scored). -/
structure SupabaseGatheredData where
  hpd_violations : List Row := []
  dob_violations : List Row := []
  elevator_inspections : List Row := []
  boiler_inspections : List Row := []
  fire_safety_inspections : List Row := []
  cooling_tower_data : List Row := []
  deriving DecidableEq

/-- `v.get('violationstatus') == 'Open'` — the supabase variant's active-HPD
test. -/
def hpdIsOpen (v : Row) : Bool :=
  rowGet v "violationstatus" == some "Open"

/-- `not v.get('disposition_date')` — the supabase variant's active-DOB test. -/
def dobNoDisposition (v : Row) : Bool :=
  !truthy (rowGet v "disposition_date")

/-- `e.get('device_status') == 'A'` — the supabase variant's active-elevator
test. -/
def elevatorIsA (e : Row) : Bool :=
  rowGet e "device_status" == some "A"

/-- `b.get('inspection_status') == 'ACCEPTED'` — the supabase variant's
recent-boiler test. -/
def boilerIsAccepted (b : Row) : Bool :=
  rowGet b "inspection_status" == some "ACCEPTED"

/-- The dict returned by `calculate_compliance_scores`. -/
structure ComplianceScores where
  hpd_score : ℚ
  dob_score : ℚ
  elevator_score : ℚ
  boiler_score : ℚ
  overall_score : ℚ
  deriving DecidableEq

/-- `AddressToSupabaseProcessor.calculate_compliance_scores`. -/
def calculate_compliance_scores (compliance_data : SupabaseGatheredData) :
    ComplianceScores :=
  let hpd_total := compliance_data.hpd_violations.length
  let hpd_active := (compliance_data.hpd_violations.filter hpdIsOpen).length
  let hpd_score : ℚ :=
    if hpd_total > 0 then max 0 (100 - (hpd_active : ℚ) * 10) else 100
  let dob_total := compliance_data.dob_violations.length
  let dob_active :=
    (compliance_data.dob_violations.filter dobNoDisposition).length
  let dob_score : ℚ :=
    if dob_total > 0 then max 0 (100 - (dob_active : ℚ) * 15) else 100
  let elevator_total := compliance_data.elevator_inspections.length
  let elevator_active :=
    (compliance_data.elevator_inspections.filter elevatorIsA).length
  let elevator_score : ℚ :=
    if elevator_total > 0 then (elevator_active : ℚ) / (elevator_total : ℚ) * 100
    else 100
  let boiler_total := compliance_data.boiler_inspections.length
  let boiler_recent :=
    (compliance_data.boiler_inspections.filter boilerIsAccepted).length
  let boiler_score : ℚ :=
    if boiler_total > 0 then (boiler_recent : ℚ) / (boiler_total : ℚ) * 100
    else 100
  { hpd_score := hpd_score
    dob_score := dob_score
    elevator_score := elevator_score
    boiler_score := boiler_score
    overall_score :=
      hpd_score * 0.25 + dob_score * 0.25 + elevator_score * 0.25 +
        boiler_score * 0.25 }

/-- The `property_info` dict built by
`AddressToSupabaseProcessor.get_property_info`. -/
structure PropertyInfo where
  address : Option String := none
  bin : Option String := none
  bbl : Option String := none
  borough : Option String := none
  block : Option String := none
  lot : Option String := none
  building_class : Option String := none
  year_built : Option String := none
  num_floors : Option String := none
  units_total : Option String := none
  deriving DecidableEq

/-- The flat record built by `structure_for_supabase` (raw-data fields hold
the row lists the Python serializes to JSON at this point). -/
structure SupabaseRecord where
  address : Option String
  bin : Option String
  bbl : Option String
  borough : Option String
  block : Option String
  lot : Option String
  building_class : Option String
  year_built : Option String
  num_floors : Option String
  units_total : Option String
  hpd_violations_total : Nat
  hpd_violations_active : Nat
  dob_violations_total : Nat
  dob_violations_active : Nat
  elevator_devices_total : Nat
  elevator_devices_active : Nat
  boiler_devices_total : Nat
  fire_safety_inspections_total : Nat
  cooling_towers_total : Nat
  hpd_compliance_score : ℚ
  dob_compliance_score : ℚ
  elevator_compliance_score : ℚ
  boiler_compliance_score : ℚ
  overall_compliance_score : ℚ
  hpd_violations_data : List Row
  dob_violations_data : List Row
  elevator_data : List Row
  boiler_data : List Row
  fire_safety_data : List Row
  cooling_tower_data : List Row
  processed_at : String
  data_source : String
  deriving DecidableEq

/-- `AddressToSupabaseProcessor.structure_for_supabase`. -/
def structure_for_supabase (property_info : PropertyInfo)
    (compliance_data : SupabaseGatheredData) (now : String) : SupabaseRecord :=
  let compliance_scores := calculate_compliance_scores compliance_data
  { address := property_info.address
    bin := property_info.bin
    bbl := property_info.bbl
    borough := property_info.borough
    block := property_info.block
    lot := property_info.lot
    building_class := property_info.building_class
    year_built := property_info.year_built
    num_floors := property_info.num_floors
    units_total := property_info.units_total
    hpd_violations_total := compliance_data.hpd_violations.length
    hpd_violations_active :=
      (compliance_data.hpd_violations.filter hpdIsOpen).length
    dob_violations_total := compliance_data.dob_violations.length
    dob_violations_active :=
      (compliance_data.dob_violations.filter dobNoDisposition).length
    elevator_devices_total := compliance_data.elevator_inspections.length
    elevator_devices_active :=
      (compliance_data.elevator_inspections.filter elevatorIsA).length
    boiler_devices_total := compliance_data.boiler_inspections.length
    fire_safety_inspections_total :=
      compliance_data.fire_safety_inspections.length
    cooling_towers_total := compliance_data.cooling_tower_data.length
    hpd_compliance_score := compliance_scores.hpd_score
    dob_compliance_score := compliance_scores.dob_score
    elevator_compliance_score := compliance_scores.elevator_score
    boiler_compliance_score := compliance_scores.boiler_score
    overall_compliance_score := compliance_scores.overall_score
    hpd_violations_data := compliance_data.hpd_violations
    dob_violations_data := compliance_data.dob_violations
    elevator_data := compliance_data.elevator_inspections
    boiler_data := compliance_data.boiler_inspections
    fire_safety_data := compliance_data.fire_safety_inspections
    cooling_tower_data := compliance_data.cooling_tower_data
    processed_at := now
    data_source := "NYC_Open_Data" }

/-! ## Category searchers (`gather_*` methods)

Each searcher returns the rows finally assigned to its category slot of
`compliance_data`, paired with the list of registry queries it issued, in
order.  An oracle answer `none` models a `get_data` transport failure (the
method sees `None` and moves on), `some []` an empty result set. -/

/-- The `boro_map` of the HPD/DOB block-lot strategies:
`{'MANHATTAN': '1', ...}.get(borough, borough)`. -/
def boroIdMap (b : String) : String :=
  if b == "MANHATTAN" then "1"
  else if b == "BRONX" then "2"
  else if b == "BROOKLYN" then "3"
  else if b == "QUEENS" then "4"
  else if b == "STATEN ISLAND" then "5"
  else b

/-- The `boro_map` of the electrical block strategy, which maps every borough
name to itself (`.get(borough, borough)` on an identity dict). -/
def electricalBoroughName (b : String) : String :=
  if b == "MANHATTAN" then "MANHATTAN"
  else if b == "BRONX" then "BRONX"
  else if b == "BROOKLYN" then "BROOKLYN"
  else if b == "QUEENS" then "QUEENS"
  else if b == "STATEN ISLAND" then "STATEN ISLAND"
  else b

/-- HPD strategy 1: `buildingid = '{bin}'`. -/
def hpdBinQuery (b : String) : Query :=
  { dataset := "hpd_violations"
    filter := [.eq "buildingid" b]
    selectCols := ["violationid", "violationstatus", "currentstatus",
      "approveddate", "novdescription", "rentimpairing"]
    orderBy := some "approveddate DESC"
    limit := 1000 }

/-- HPD strategy 2: `boroid = .. AND block = .. AND lot = ..`. -/
def hpdBlockLotQuery (borough block lot : String) : Query :=
  { dataset := "hpd_violations"
    filter := [.eq "boroid" (boroIdMap borough), .eq "block" block,
      .eq "lot" lot]
    selectCols := ["violationid", "violationstatus", "currentstatus",
      "approveddate", "novdescription", "rentimpairing", "buildingid"]
    orderBy := some "approveddate DESC"
    limit := 1000 }

/-- HPD strategy 3: `housenumber = .. AND UPPER(streetname) LIKE
'%{street.upper()}%'`. -/
def hpdAddressQuery (house_number street_name : String) : Query :=
  { dataset := "hpd_violations"
    filter := [.eq "housenumber" house_number,
      .like "streetname" street_name.toUpper]
    selectCols := ["violationid", "violationstatus", "currentstatus",
      "approveddate", "novdescription", "rentimpairing", "buildingid"]
    orderBy := some "approveddate DESC"
    limit := 1000 }

/-- DOB strategy 1: `bin = '{bin}'`. -/
def dobBinQuery (b : String) : Query :=
  { dataset := "dob_violations"
    filter := [.eq "bin" b]
    selectCols := ["isn_dob_bis_viol", "violation_category", "violation_type",
      "issue_date", "disposition_comments", "description", "bin"]
    orderBy := some "issue_date DESC"
    limit := 1000 }

/-- DOB strategy 2: `boro = .. AND block = .. AND lot = ..`. -/
def dobBlockLotQuery (borough block lot : String) : Query :=
  { dataset := "dob_violations"
    filter := [.eq "boro" (boroIdMap borough), .eq "block" block,
      .eq "lot" lot]
    selectCols := ["isn_dob_bis_viol", "violation_category", "violation_type",
      "issue_date", "disposition_comments", "description", "bin"]
    orderBy := some "issue_date DESC"
    limit := 1000 }

/-- DOB strategy 3: `house_number = .. AND UPPER(street) LIKE
'%{street.upper()}%'`. -/
def dobAddressQuery (house_number street_name : String) : Query :=
  { dataset := "dob_violations"
    filter := [.eq "house_number" house_number,
      .like "street" street_name.toUpper]
    selectCols := ["isn_dob_bis_viol", "violation_category", "violation_type",
      "issue_date", "disposition_comments", "description", "bin"]
    orderBy := some "issue_date DESC"
    limit := 1000 }

/-- Elevator strategy 1: `bin = '{bin}'`. -/
def elevatorBinQuery (b : String) : Query :=
  { dataset := "elevator_inspections"
    filter := [.eq "bin" b]
    selectCols := ["device_number", "device_type", "device_status",
      "status_date", "house_number", "street_name"]
    orderBy := some "status_date DESC"
    limit := 100 }

/-- Elevator strategy 2: `block = .. AND lot = ..`. -/
def elevatorBlockLotQuery (block lot : String) : Query :=
  { dataset := "elevator_inspections"
    filter := [.eq "block" block, .eq "lot" lot]
    selectCols := ["device_number", "device_type", "device_status",
      "status_date", "bin", "house_number", "street_name"]
    orderBy := some "status_date DESC"
    limit := 100 }

/-- Elevator strategy 3 (one street-pattern variation):
`house_number = .. AND street_name LIKE '%{pattern}%'`. -/
def elevatorAddressQuery (house_number pattern : String) : Query :=
  { dataset := "elevator_inspections"
    filter := [.eq "house_number" house_number, .like "street_name" pattern]
    selectCols := ["device_number", "device_type", "device_status",
      "status_date", "bin"]
    orderBy := some "status_date DESC"
    limit := 100 }

/-- The single boiler strategy: `bin_number = '{bin}'` against the
DOB NOW Safety Boiler dataset, which has no address or parcel columns. -/
def boilerBinQuery (b : String) : Query :=
  { dataset := "boiler_inspections"
    filter := [.eq "bin_number" b]
    selectCols := ["tracking_number", "boiler_id", "inspection_date",
      "defects_exist", "report_status", "bin_number", "boiler_make",
      "pressure_type", "report_type"]
    orderBy := some "inspection_date DESC"
    limit := 100 }

/-- Electrical strategy 1: `bin = '{bin}'`. -/
def electricalBinQuery (b : String) : Query :=
  { dataset := "electrical_permits"
    filter := [.eq "bin" b]
    selectCols := ["filing_number", "filing_date", "filing_status",
      "job_description", "applicant_first_name", "applicant_last_name",
      "completion_date", "amount_paid"]
    orderBy := some "filing_date DESC"
    limit := 100 }

/-- Electrical strategy 2: `borough = .. AND block = ..` (no lot). -/
def electricalBlockQuery (borough block : String) : Query :=
  { dataset := "electrical_permits"
    filter := [.eq "borough" (electricalBoroughName borough),
      .eq "block" block]
    selectCols := ["filing_number", "filing_date", "filing_status",
      "job_description", "bin"]
    orderBy := some "filing_date DESC"
    limit := 100 }

/-- Certificate-of-occupancy strategy 1: `bin = '{bin}'`. -/
def cooBinQuery (b : String) : Query :=
  { dataset := "certificate_of_occupancy"
    filter := [.eq "bin" b]
    selectCols := ["bin", "c_of_o_filing_type", "c_of_o_status",
      "c_of_o_issuance_date", "job_type", "block", "lot", "house_no",
      "street_name"]
    orderBy := some "c_of_o_issuance_date DESC"
    limit := 50 }

/-- Certificate-of-occupancy strategy 2: `block = .. AND lot = ..`. -/
def cooBlockLotQuery (block lot : String) : Query :=
  { dataset := "certificate_of_occupancy"
    filter := [.eq "block" block, .eq "lot" lot]
    selectCols := ["bin", "c_of_o_filing_type", "c_of_o_status",
      "c_of_o_issuance_date", "job_type", "block", "lot", "house_no",
      "street_name"]
    orderBy := some "c_of_o_issuance_date DESC"
    limit := 50 }

/-- Strategy 3 of `gather_hpd_violations` (the address fallback), reached when
the earlier strategies missed. -/
def hpdAddressStep (ids : PropertyIdentifiers) (oracle : Oracle) :
    List Row × List Query :=
  let address_parts := ids.address.splitOn " "
  if address_parts.length ≥ 2 then
    let house_number := address_parts.headD ""
    let street_name := String.intercalate " " address_parts.tail
    let q := hpdAddressQuery house_number street_name
    match oracle q with
    | some rows => if rows.length > 0 then (rows, [q]) else ([], [q])
    | none => ([], [q])
  else ([], [])

/-- Strategy 2 of `gather_hpd_violations` (block/lot), falling through to the
address strategy on a miss. -/
def hpdBlockLotStep (ids : PropertyIdentifiers) (oracle : Oracle) :
    List Row × List Query :=
  if truthy ids.borough && truthy ids.block && truthy ids.lot then
    let q := hpdBlockLotQuery (ids.borough.getD "") (ids.block.getD "")
      (ids.lot.getD "")
    match oracle q with
    | some rows =>
        if rows.length > 0 then (rows, [q])
        else
          let (r, a) := hpdAddressStep ids oracle
          (r, q :: a)
    | none =>
        let (r, a) := hpdAddressStep ids oracle
        (r, q :: a)
  else hpdAddressStep ids oracle

/-- `gather_hpd_violations`: BIN, then block/lot, then address; the first
strategy returning at least one row ends the search with those rows. -/
def gather_hpd_violations (ids : PropertyIdentifiers) (oracle : Oracle) :
    List Row × List Query :=
  if truthy ids.bin then
    let q := hpdBinQuery (ids.bin.getD "")
    match oracle q with
    | some rows =>
        if rows.length > 0 then (rows, [q])
        else
          let (r, a) := hpdBlockLotStep ids oracle
          (r, q :: a)
    | none =>
        let (r, a) := hpdBlockLotStep ids oracle
        (r, q :: a)
  else hpdBlockLotStep ids oracle

/-- Strategy 3 of `gather_dob_violations` (the address fallback). -/
def dobAddressStep (ids : PropertyIdentifiers) (oracle : Oracle) :
    List Row × List Query :=
  let address_parts := ids.address.splitOn " "
  if address_parts.length ≥ 2 then
    let house_number := address_parts.headD ""
    let street_name := String.intercalate " " address_parts.tail
    let q := dobAddressQuery house_number street_name
    match oracle q with
    | some rows => if rows.length > 0 then (rows, [q]) else ([], [q])
    | none => ([], [q])
  else ([], [])

/-- Strategy 2 of `gather_dob_violations` (block/lot). -/
def dobBlockLotStep (ids : PropertyIdentifiers) (oracle : Oracle) :
    List Row × List Query :=
  if truthy ids.borough && truthy ids.block && truthy ids.lot then
    let q := dobBlockLotQuery (ids.borough.getD "") (ids.block.getD "")
      (ids.lot.getD "")
    match oracle q with
    | some rows =>
        if rows.length > 0 then (rows, [q])
        else
          let (r, a) := dobAddressStep ids oracle
          (r, q :: a)
    | none =>
        let (r, a) := dobAddressStep ids oracle
        (r, q :: a)
  else dobAddressStep ids oracle

/-- `gather_dob_violations`: BIN, then block/lot, then address. -/
def gather_dob_violations (ids : PropertyIdentifiers) (oracle : Oracle) :
    List Row × List Query :=
  if truthy ids.bin then
    let q := dobBinQuery (ids.bin.getD "")
    match oracle q with
    | some rows =>
        if rows.length > 0 then (rows, [q])
        else
          let (r, a) := dobBlockLotStep ids oracle
          (r, q :: a)
    | none =>
        let (r, a) := dobBlockLotStep ids oracle
        (r, q :: a)
  else dobBlockLotStep ids oracle

/-- The street-pattern loop of elevator strategy 3: try each pattern in turn,
stopping at the first non-empty result; an inner exception (oracle `none`)
advances to the next pattern. -/
def elevatorPatternLoop (house_number : String) (oracle : Oracle) :
    List String → List Row × List Query
  | [] => ([], [])
  | p :: rest =>
      let q := elevatorAddressQuery house_number p
      match oracle q with
      | some rows =>
          if rows.length > 0 then (rows, [q])
          else
            let (r, a) := elevatorPatternLoop house_number oracle rest
            (r, q :: a)
      | none =>
          let (r, a) := elevatorPatternLoop house_number oracle rest
          (r, q :: a)

/-- Strategy 3 of `gather_elevator_data`: address search over three street
spelling variations. -/
def elevatorAddressStep (ids : PropertyIdentifiers) (oracle : Oracle) :
    List Row × List Query :=
  let address_parts := ids.address.splitOn " "
  if address_parts.length ≥ 2 then
    let house_number := address_parts.headD ""
    let street_name := String.intercalate " " address_parts.tail
    elevatorPatternLoop house_number oracle
      [street_name, street_name.replace "AVENUE" "AVE",
        street_name.replace "AVE" "AVENUE"]
  else ([], [])

/-- Strategy 2 of `gather_elevator_data` (block/lot, no borough needed). -/
def elevatorBlockLotStep (ids : PropertyIdentifiers) (oracle : Oracle) :
    List Row × List Query :=
  if truthy ids.block && truthy ids.lot then
    let q := elevatorBlockLotQuery (ids.block.getD "") (ids.lot.getD "")
    match oracle q with
    | some rows =>
        if rows.length > 0 then (rows, [q])
        else
          let (r, a) := elevatorAddressStep ids oracle
          (r, q :: a)
    | none =>
        let (r, a) := elevatorAddressStep ids oracle
        (r, q :: a)
  else elevatorAddressStep ids oracle

/-- `gather_elevator_data`: BIN, then block/lot, then address variations. -/
def gather_elevator_data (ids : PropertyIdentifiers) (oracle : Oracle) :
    List Row × List Query :=
  if truthy ids.bin then
    let q := elevatorBinQuery (ids.bin.getD "")
    match oracle q with
    | some rows =>
        if rows.length > 0 then (rows, [q])
        else
          let (r, a) := elevatorBlockLotStep ids oracle
          (r, q :: a)
    | none =>
        let (r, a) := elevatorBlockLotStep ids oracle
        (r, q :: a)
  else elevatorBlockLotStep ids oracle

/-- `gather_boiler_data`: the boiler dataset carries only `bin_number`, so the
only strategy is a single BIN query; without a BIN no query is issued and the
category stays empty. -/
def gather_boiler_data (ids : PropertyIdentifiers) (oracle : Oracle) :
    List Row × List Query :=
  if truthy ids.bin then
    let q := boilerBinQuery (ids.bin.getD "")
    match oracle q with
    | some rows => if rows.length > 0 then (rows, [q]) else ([], [q])
    | none => ([], [q])
  else ([], [])

/-- Strategy 2 of `gather_electrical_permits`: borough + block (no lot). -/
def electricalBlockStep (ids : PropertyIdentifiers) (oracle : Oracle) :
    List Row × List Query :=
  if truthy ids.borough && truthy ids.block then
    let q := electricalBlockQuery (ids.borough.getD "") (ids.block.getD "")
    match oracle q with
    | some rows => if rows.length > 0 then (rows, [q]) else ([], [q])
    | none => ([], [q])
  else ([], [])

/-- `gather_electrical_permits`: BIN, then borough/block. -/
def gather_electrical_permits (ids : PropertyIdentifiers) (oracle : Oracle) :
    List Row × List Query :=
  if truthy ids.bin then
    let q := electricalBinQuery (ids.bin.getD "")
    match oracle q with
    | some rows =>
        if rows.length > 0 then (rows, [q])
        else
          let (r, a) := electricalBlockStep ids oracle
          (r, q :: a)
    | none =>
        let (r, a) := electricalBlockStep ids oracle
        (r, q :: a)
  else electricalBlockStep ids oracle

/-- Strategy 2 of `gather_certificate_of_occupancy` (block/lot). -/
def cooBlockLotStep (ids : PropertyIdentifiers) (oracle : Oracle) :
    List Row × List Query :=
  if truthy ids.block && truthy ids.lot then
    let q := cooBlockLotQuery (ids.block.getD "") (ids.lot.getD "")
    match oracle q with
    | some rows => if rows.length > 0 then (rows, [q]) else ([], [q])
    | none => ([], [q])
  else ([], [])

/-- `gather_certificate_of_occupancy`: BIN, then block/lot.  (When the BIN
strategy hits, the rows are assigned before the summary printing, so a crash
in the pandas-style summary indexing leaves the assigned rows in place and
ends the search — the net effect embedded here.) -/
def gather_certificate_of_occupancy (ids : PropertyIdentifiers)
    (oracle : Oracle) : List Row × List Query :=
  if truthy ids.bin then
    let q := cooBinQuery (ids.bin.getD "")
    match oracle q with
    | some rows =>
        if rows.length > 0 then (rows, [q])
        else
          let (r, a) := cooBlockLotStep ids oracle
          (r, q :: a)
    | none =>
        let (r, a) := cooBlockLotStep ids oracle
        (r, q :: a)
  else cooBlockLotStep ids oracle

/-- `gather_comprehensive_compliance_data`: run each category searcher and
collect the per-category row sets into the `compliance_data` dict. -/
def gather_comprehensive_compliance_data (ids : PropertyIdentifiers)
    (oracle : Oracle) : GatheredData :=
  { hpd_violations := (gather_hpd_violations ids oracle).1
    dob_violations := (gather_dob_violations ids oracle).1
    elevator_inspections := (gather_elevator_data ids oracle).1
    boiler_inspections := (gather_boiler_data ids oracle).1
    certificate_of_occupancy := (gather_certificate_of_occupancy ids oracle).1
    electrical_permits := (gather_electrical_permits ids oracle).1 }

/-! ## The spec's generic strategy loop (§4.3)

Modelled from the spec: iterate strategies in declared order; for each
eligible strategy issue one registry query; stop with the rows of the first
query returning at least one row; treat an erroring attempt as a miss;
return empty when every eligible strategy is exhausted. -/

/-- Modelled from the spec (§4.3): the generic fallback loop over an ordered
list of eligible strategy queries. -/
def searchStrategies (oracle : Oracle) : List Query → List Row × List Query
  | [] => ([], [])
  | q :: rest =>
      match oracle q with
      | some rows =>
          if rows.length > 0 then (rows, [q])
          else
            let (r, a) := searchStrategies oracle rest
            (r, q :: a)
      | none =>
          let (r, a) := searchStrategies oracle rest
          (r, q :: a)

/-- The HPD searcher's declared strategy order with ineligible strategies
(missing identifiers) skipped. -/
def hpdStrategyQueries (ids : PropertyIdentifiers) : List Query :=
  (if truthy ids.bin then [hpdBinQuery (ids.bin.getD "")] else []) ++
  (if truthy ids.borough && truthy ids.block && truthy ids.lot then
     [hpdBlockLotQuery (ids.borough.getD "") (ids.block.getD "")
       (ids.lot.getD "")]
   else []) ++
  (if (ids.address.splitOn " ").length ≥ 2 then
     [hpdAddressQuery ((ids.address.splitOn " ").headD "")
       (String.intercalate " " (ids.address.splitOn " ").tail)]
   else [])

/-- The DOB searcher's declared strategy order with ineligible strategies
skipped. -/
def dobStrategyQueries (ids : PropertyIdentifiers) : List Query :=
  (if truthy ids.bin then [dobBinQuery (ids.bin.getD "")] else []) ++
  (if truthy ids.borough && truthy ids.block && truthy ids.lot then
     [dobBlockLotQuery (ids.borough.getD "") (ids.block.getD "")
       (ids.lot.getD "")]
   else []) ++
  (if (ids.address.splitOn " ").length ≥ 2 then
     [dobAddressQuery ((ids.address.splitOn " ").headD "")
       (String.intercalate " " (ids.address.splitOn " ").tail)]
   else [])

/-! ## Identity resolution -/

/-- The `addendum.pad` object of a GeoSearch v2 feature. -/
structure PadData where
  bin : Option String := none
  bbl : Option String := none
  deriving DecidableEq

/-- The `properties` object of the best-match GeoSearch feature. -/
structure GeoProperties where
  housenumber : Option String := none
  street : Option String := none
  borough : Option String := none
  postalcode : Option String := none
  pad : PadData := {}
  deriving DecidableEq

/-- Outcome of the GeoSearch HTTP call in
`NYCPlanningGeoSearchClient.get_property_identifiers`: a transport error or
non-2xx status (any exception, caught and turned into `None`), an empty
`features` array, or a best-match feature. -/
inductive GeoResponse where
  | failure
  | noFeatures
  | feature (props : GeoProperties)
  deriving DecidableEq

/-- The `borough_map` normalization, applied with
`.get(borough_name, borough_name)` to a possibly missing name. -/
def geoBoroughMap : Option String → Option String
  | none => none
  | some b =>
      some (if b == "Manhattan" then "MANHATTAN"
        else if b == "Brooklyn" then "BROOKLYN"
        else if b == "Queens" then "QUEENS"
        else if b == "Bronx" then "BRONX"
        else if b == "Staten Island" then "STATEN ISLAND"
        else b)

/-- `bbl[1:6].lstrip('0')` as the code derives the block (characters at
indices 1–5, leading zero characters removed). -/
def bblBlock (b : String) : String :=
  String.mk (((b.toList.drop 1).take 5).dropWhile (fun c => c == '0'))

/-- `bbl[6:].lstrip('0')` as the code derives the lot. -/
def bblLot (b : String) : String :=
  String.mk ((b.toList.drop 6).dropWhile (fun c => c == '0'))

/-- `NYCPlanningGeoSearchClient.get_property_identifiers`: parse the GeoSearch
response into a `PropertyIdentifiers`, splitting the composite BBL into
block/lot only when the BBL is truthy and at least 10 characters long. -/
def geo_get_property_identifiers (resp : GeoResponse) :
    Option PropertyIdentifiers :=
  match resp with
  | .failure => none
  | .noFeatures => none
  | .feature props =>
      let house_number := props.housenumber.getD ""
      let street := props.street.getD ""
      let formatted_address := (house_number ++ " " ++ street).trim
      let bbl := props.pad.bbl
      let blockLot : Option String × Option String :=
        match bbl with
        | some b =>
            if b ≠ "" ∧ b.length ≥ 10 then (some (bblBlock b), some (bblLot b))
            else (none, none)
        | none => (none, none)
      some { address := formatted_address
             bin := props.pad.bin
             bbl := bbl
             borough := geoBoroughMap props.borough
             block := blockLot.1
             lot := blockLot.2
             zip_code := props.postalcode }

/-- Modelled from the spec: the transform the spec describes for exposing
block/lot — "trailing zeros stripped" — for comparison with what the code
computes. -/
def specStripTrailingZeros (l : List Char) : List Char :=
  (l.reverse.dropWhile (fun c => c == '0')).reverse

/-- The borough/state suffixes removed by `fallback_property_search`. -/
def fallbackSuffixes : List String :=
  [", NEW YORK, NY", ", NEW YORK", ", NY", ", MANHATTAN", ", BROOKLYN",
    ", QUEENS", ", BRONX", ", STATEN ISLAND"]

/-- A regex word character (`\w`): letter, digit or underscore. -/
def isWordChar (c : Char) : Bool := c.isAlphanum || c == '_'

/-- Scan for the leftmost word-bounded run of exactly five digits
(`re.search` of a 5-digit group between word boundaries); `prev` is the
character before the scan position. -/
def findZipAux (prev : Option Char) : List Char → Option String
  | [] => none
  | c :: rest =>
      let cand := (c :: rest).take 5
      if cand.length == 5 && cand.all Char.isDigit &&
          (match prev with | none => true | some p => !isWordChar p) &&
          (match (c :: rest).drop 5 with
           | [] => true
           | d :: _ => !isWordChar d) then
        some (String.mk cand)
      else findZipAux (some c) rest

/-- `re.search(five-digit word, s)` as used to pull a ZIP code out of the
cleaned address. -/
def findZip (s : String) : Option String := findZipAux none s.toList

/-- The single HPD query issued by `fallback_property_search`:
`housenumber = .. AND streetname LIKE '%..%'`, plus `zip = ..` when a ZIP
was extracted. -/
def fallbackQuery (house_number street_name : String)
    (zip_code : Option String) : Query :=
  { dataset := "hpd_violations"
    filter := [.eq "housenumber" house_number, .like "streetname" street_name]
      ++ (match zip_code with | some z => [.eq "zip" z] | none => [])
    selectCols := ["buildingid", "housenumber", "streetname", "boro", "block",
      "lot", "zip"]
    orderBy := none
    limit := 1 }

/-- The address cleanup of `fallback_property_search` — uppercase, strip
borough and state suffixes, pull out and remove a ZIP — producing the single
HPD query the fallback issues. -/
def fallbackQueryOf (address : String) : Query :=
  let address_clean0 := fallbackSuffixes.foldl
    (fun (s suffix : String) => s.replace suffix "") address.toUpper.trim
  let zip_code := findZip address_clean0
  let address_clean :=
    match zip_code with
    | some z => (address_clean0.replace z "").trim
    | none => address_clean0
  let address_parts := address_clean.splitOn " "
  let house_number := address_parts.headD ""
  let street_name := String.intercalate " " address_parts.tail
  fallbackQuery house_number street_name zip_code

/-- `fallback_property_search`: clean the address, query the HPD violations
registry by house number and street name, and read identifiers off the first
hit; `none` on no hit or transport failure. -/
def fallback_property_search (address : String) (oracle : Oracle) :
    Option PropertyIdentifiers :=
  match oracle (fallbackQueryOf address) with
  | some (m :: _) =>
      some { address := (((rowGet m "housenumber").getD "") ++ " " ++
               ((rowGet m "streetname").getD "")).trim
             bin := rowGet m "buildingid"
             bbl := some (((rowGet m "boro").getD "") ++
               ((rowGet m "block").getD "") ++ ((rowGet m "lot").getD ""))
             borough := rowGet m "boro"
             block := rowGet m "block"
             lot := rowGet m "lot"
             zip_code := rowGet m "zip" }
  | some [] => none
  | none => none

/-- `ComprehensivePropertyComplianceSystem.get_property_identifiers`:
primary GeoSearch lookup, then the HPD-violations fallback. -/
def get_property_identifiers (geoResp : GeoResponse) (address : String)
    (oracle : Oracle) : Option PropertyIdentifiers :=
  match geo_get_property_identifiers geoResp with
  | some identifiers => some identifiers
  | none => fallback_property_search address oracle

/-- `ComprehensivePropertyComplianceSystem.process_property`: resolve
identifiers, then either assemble the full compliance record or — when
resolution fails — the empty record, never an exception. -/
def process_property (address : String) (geoResp : GeoResponse)
    (oracle : Oracle) (currentYear : Nat) (now : String) : ComplianceRecord :=
  match get_property_identifiers geoResp address oracle with
  | none => create_empty_record address now
  | some identifiers =>
      create_compliance_record identifiers
        (gather_comprehensive_compliance_data identifiers oracle)
        currentYear now

/-! ## Registry client (`NYCOpenDataClient.get_data`) -/

/-- Outcome of one HTTP round trip of the registry client session. -/
inductive TransportOutcome where
  | success (rows : List Row)
  | networkError
  | timeout
  | httpError (status : Nat)
  deriving DecidableEq

/-- The dataset keys configured in `NYCOpenDataClient.datasets`. -/
def nycDatasets : List String :=
  ["boiler_inspections", "elevator_inspections", "dob_violations",
    "hpd_violations", "hpd_registrations", "cooling_tower_registrations",
    "cooling_tower_inspections", "complaints_311", "building_complaints",
    "fire_safety_inspections", "fdny_violations"]

/-- `NYCOpenDataClient.get_data` (json format): an unknown dataset key raises
`ValueError` (the `Except.error` branch); otherwise one request is made —
`attempts 0` — and any `RequestException` (network error, timeout, or the
`raise_for_status` of an upstream error status) is caught, printed and turned
into the return value `None`; a successful response yields its rows.
`attempts` indexes the transport outcome of the n-th request the function
would make, exposing how many requests are issued. -/
def get_data (dataset_key : String) (attempts : Nat → TransportOutcome) :
    Except String (Option (List Row)) :=
  if dataset_key ∈ nycDatasets then
    match attempts 0 with
    | .success rows => .ok (some rows)
    | .networkError => .ok none
    | .timeout => .ok none
    | .httpError _ => .ok none
  else
    .error "ValueError: Unknown dataset"

/-! ## Shared lemmas about the scoring arithmetic -/

lemma max_score_bounds (x : ℚ) (h : x ≤ 100) : 0 ≤ max 0 x ∧ max 0 x ≤ 100 :=
  ⟨le_max_left 0 x, max_le (by norm_num) h⟩

lemma penalty_le_100 (a : Nat) (p : ℚ) (hp : 0 ≤ p) :
    100 - (a : ℚ) * p ≤ 100 := by
  have : 0 ≤ (a : ℚ) * p := mul_nonneg (by positivity) hp
  linarith

lemma ratio_score_bounds (a t : Nat) (h : a ≤ t) :
    0 ≤ (a : ℚ) / (t : ℚ) * 100 ∧ (a : ℚ) / (t : ℚ) * 100 ≤ 100 := by
  refine ⟨by positivity, ?_⟩
  rcases Nat.eq_zero_or_pos t with ht | ht
  · subst ht
    have ha : a = 0 := Nat.le_zero.mp h
    subst ha
    norm_num
  · have h1 : (a : ℚ) / (t : ℚ) ≤ 1 := by
      rw [div_le_one (by exact_mod_cast ht)]
      exact_mod_cast h
    calc (a : ℚ) / (t : ℚ) * 100 ≤ 1 * 100 :=
          mul_le_mul_of_nonneg_right h1 (by norm_num)
      _ = 100 := by norm_num

lemma cr_hpd_score (ids : PropertyIdentifiers) (d : GatheredData) (cy : Nat)
    (now : String) :
    (create_compliance_record ids d cy now).hpd_compliance_score =
      if d.hpd_violations.length > 0 then
        max 0 (100 - ((d.hpd_violations.filter hpdIsActive).length : ℚ) * 10)
      else 100 := rfl

lemma cr_dob_score (ids : PropertyIdentifiers) (d : GatheredData) (cy : Nat)
    (now : String) :
    (create_compliance_record ids d cy now).dob_compliance_score =
      if d.dob_violations.length > 0 then
        max 0 (100 - ((d.dob_violations.filter dobIsActive).length : ℚ) * 15)
      else 100 := rfl

lemma cr_elev_score (ids : PropertyIdentifiers) (d : GatheredData) (cy : Nat)
    (now : String) :
    (create_compliance_record ids d cy now).elevator_compliance_score =
      if d.elevator_inspections.length > 0 then
        ((d.elevator_inspections.filter elevatorIsActive).length : ℚ) /
          (d.elevator_inspections.length : ℚ) * 100
      else 100 := rfl

lemma cr_elec_score (ids : PropertyIdentifiers) (d : GatheredData) (cy : Nat)
    (now : String) :
    (create_compliance_record ids d cy now).electrical_compliance_score =
      if d.electrical_permits.length > 0 then
        (if (d.electrical_permits.filter (electricalIsRecent cy)).length = 0 then (70 : ℚ)
         else if (d.electrical_permits.filter electricalIsActive).length > 0 then 90
         else 100)
      else 85 := rfl

lemma cr_overall (ids : PropertyIdentifiers) (d : GatheredData) (cy : Nat)
    (now : String) :
    (create_compliance_record ids d cy now).overall_compliance_score =
      (create_compliance_record ids d cy now).hpd_compliance_score * 0.3 +
        (create_compliance_record ids d cy now).dob_compliance_score * 0.3 +
        (create_compliance_record ids d cy now).elevator_compliance_score * 0.2 +
        (create_compliance_record ids d cy now).electrical_compliance_score * 0.2 :=
  rfl

lemma ccs_hpd_score (sd : SupabaseGatheredData) :
    (calculate_compliance_scores sd).hpd_score =
      if sd.hpd_violations.length > 0 then
        max 0 (100 - ((sd.hpd_violations.filter hpdIsOpen).length : ℚ) * 10)
      else 100 := rfl

lemma ccs_dob_score (sd : SupabaseGatheredData) :
    (calculate_compliance_scores sd).dob_score =
      if sd.dob_violations.length > 0 then
        max 0 (100 - ((sd.dob_violations.filter dobNoDisposition).length : ℚ) * 15)
      else 100 := rfl

lemma ccs_elev_score (sd : SupabaseGatheredData) :
    (calculate_compliance_scores sd).elevator_score =
      if sd.elevator_inspections.length > 0 then
        ((sd.elevator_inspections.filter elevatorIsA).length : ℚ) /
          (sd.elevator_inspections.length : ℚ) * 100
      else 100 := rfl

lemma ccs_boiler_score (sd : SupabaseGatheredData) :
    (calculate_compliance_scores sd).boiler_score =
      if sd.boiler_inspections.length > 0 then
        ((sd.boiler_inspections.filter boilerIsAccepted).length : ℚ) /
          (sd.boiler_inspections.length : ℚ) * 100
      else 100 := rfl

lemma ccs_overall (sd : SupabaseGatheredData) :
    (calculate_compliance_scores sd).overall_score =
      (calculate_compliance_scores sd).hpd_score * 0.25 +
        (calculate_compliance_scores sd).dob_score * 0.25 +
        (calculate_compliance_scores sd).elevator_score * 0.25 +
        (calculate_compliance_scores sd).boiler_score * 0.25 := rfl

lemma hpd_score_mem (ids : PropertyIdentifiers) (d : GatheredData) (cy : Nat)
    (now : String) :
    0 ≤ (create_compliance_record ids d cy now).hpd_compliance_score ∧
      (create_compliance_record ids d cy now).hpd_compliance_score ≤ 100 := by
  rw [cr_hpd_score]
  split
  · exact max_score_bounds _ (penalty_le_100 _ 10 (by norm_num))
  · constructor <;> norm_num

lemma dob_score_mem (ids : PropertyIdentifiers) (d : GatheredData) (cy : Nat)
    (now : String) :
    0 ≤ (create_compliance_record ids d cy now).dob_compliance_score ∧
      (create_compliance_record ids d cy now).dob_compliance_score ≤ 100 := by
  rw [cr_dob_score]
  split
  · exact max_score_bounds _ (penalty_le_100 _ 15 (by norm_num))
  · constructor <;> norm_num

lemma elev_score_mem (ids : PropertyIdentifiers) (d : GatheredData) (cy : Nat)
    (now : String) :
    0 ≤ (create_compliance_record ids d cy now).elevator_compliance_score ∧
      (create_compliance_record ids d cy now).elevator_compliance_score ≤ 100 := by
  rw [cr_elev_score]
  split
  · exact ratio_score_bounds _ _ (List.length_filter_le _ _)
  · constructor <;> norm_num

lemma elec_score_mem (ids : PropertyIdentifiers) (d : GatheredData) (cy : Nat)
    (now : String) :
    0 ≤ (create_compliance_record ids d cy now).electrical_compliance_score ∧
      (create_compliance_record ids d cy now).electrical_compliance_score ≤ 100 := by
  rw [cr_elec_score]
  split
  · split
    · constructor <;> norm_num
    · split <;> constructor <;> norm_num
  · constructor <;> norm_num

lemma s_hpd_score_mem (sd : SupabaseGatheredData) :
    0 ≤ (calculate_compliance_scores sd).hpd_score ∧
      (calculate_compliance_scores sd).hpd_score ≤ 100 := by
  rw [ccs_hpd_score]
  split
  · exact max_score_bounds _ (penalty_le_100 _ 10 (by norm_num))
  · constructor <;> norm_num

lemma s_dob_score_mem (sd : SupabaseGatheredData) :
    0 ≤ (calculate_compliance_scores sd).dob_score ∧
      (calculate_compliance_scores sd).dob_score ≤ 100 := by
  rw [ccs_dob_score]
  split
  · exact max_score_bounds _ (penalty_le_100 _ 15 (by norm_num))
  · constructor <;> norm_num

lemma s_elev_score_mem (sd : SupabaseGatheredData) :
    0 ≤ (calculate_compliance_scores sd).elevator_score ∧
      (calculate_compliance_scores sd).elevator_score ≤ 100 := by
  rw [ccs_elev_score]
  split
  · exact ratio_score_bounds _ _ (List.length_filter_le _ _)
  · constructor <;> norm_num

lemma s_boiler_score_mem (sd : SupabaseGatheredData) :
    0 ≤ (calculate_compliance_scores sd).boiler_score ∧
      (calculate_compliance_scores sd).boiler_score ≤ 100 := by
  rw [ccs_boiler_score]
  split
  · exact ratio_score_bounds _ _ (List.length_filter_le _ _)
  · constructor <;> norm_num

/-- Test data for the penalty rule: five HPD violations, two of them open. -/
def fiveTwoData : GatheredData :=
  { hpd_violations :=
      [[("violationstatus", some "Open")], [("violationstatus", some "Open")],
        [("violationstatus", some "Close")], [("violationstatus", some "Close")],
        [("violationstatus", some "Close")]] }

/-- C4: violation-style categories score 100 when the total is 0 and
otherwise `max 0 (100 − active × penalty)` with penalty 10 for housing (HPD)
and 15 for building (DOB) violations, in both scoring variants; in
particular five rows with two active and penalty 10 score 80. -/
theorem violation_penalty_scores (ids : PropertyIdentifiers) (d : GatheredData)
    (cy : Nat) (now : String) (info : PropertyInfo)
    (sd : SupabaseGatheredData) (now2 : String)
    (r : ComplianceRecord) (hr : r = create_compliance_record ids d cy now)
    (s : SupabaseRecord) (hs : s = structure_for_supabase info sd now2) :
    (r.hpd_violations_total = 0 → r.hpd_compliance_score = 100) ∧
    (r.hpd_violations_total ≠ 0 →
      r.hpd_compliance_score = max 0 (100 - (r.hpd_violations_active : ℚ) * 10)) ∧
    (r.dob_violations_total = 0 → r.dob_compliance_score = 100) ∧
    (r.dob_violations_total ≠ 0 →
      r.dob_compliance_score = max 0 (100 - (r.dob_violations_active : ℚ) * 15)) ∧
    (s.hpd_violations_total = 0 → s.hpd_compliance_score = 100) ∧
    (s.hpd_violations_total ≠ 0 →
      s.hpd_compliance_score = max 0 (100 - (s.hpd_violations_active : ℚ) * 10)) ∧
    (s.dob_violations_total = 0 → s.dob_compliance_score = 100) ∧
    (s.dob_violations_total ≠ 0 →
      s.dob_compliance_score = max 0 (100 - (s.dob_violations_active : ℚ) * 15)) ∧
    ((create_compliance_record ids fiveTwoData cy now).hpd_violations_total = 5 ∧
      (create_compliance_record ids fiveTwoData cy now).hpd_violations_active = 2 ∧
      (create_compliance_record ids fiveTwoData cy now).hpd_compliance_score = 80) := by
  subst hr hs
  simp only [create_compliance_record, structure_for_supabase,
    calculate_compliance_scores]
  refine ⟨?_, ?_, ?_, ?_, ?_, ?_, ?_, ?_, ?_, ?_, ?_⟩
  · intro h; simp [h]
  · intro h; simp [Nat.pos_of_ne_zero h]
  · intro h; simp [h]
  · intro h; simp [Nat.pos_of_ne_zero h]
  · intro h; simp [h]
  · intro h; simp [Nat.pos_of_ne_zero h]
  · intro h; simp [h]
  · intro h; simp [Nat.pos_of_ne_zero h]
  · decide
  · decide
  · have hl5 : fiveTwoData.hpd_violations.length = 5 := by decide
    have hlen : (List.filter hpdIsActive fiveTwoData.hpd_violations).length = 2 := by
      decide
    rw [hl5, hlen]
    rw [if_pos (by norm_num : (5 : Nat) > 0)]
    rw [show (100 - ((2 : Nat) : ℚ) * 10) = 80 by norm_num]
    exact max_eq_right (by norm_num)

/-- C2 counterexample: with every category empty the electrical permits score
of the assembled comprehensive record is 85, not 100. -/
theorem empty_electrical_scores_85 :
    (create_compliance_record { address := "1 MAIN ST" } {} 2025 "t").electrical_permits_total = 0 ∧
    (create_compliance_record { address := "1 MAIN ST" } {} 2025 "t").electrical_compliance_score ≠ 100 := by
  constructor
  · decide
  · show (85 : ℚ) ≠ 100
    norm_num

/-- C2 (amended): a category gathered empty scores 100 — for housing, building
and elevator categories in the comprehensive variant and for housing,
building, elevator and boiler categories in the supabase variant — except the
electrical permits category, which scores 85 when empty. -/
theorem empty_category_scores (ids : PropertyIdentifiers) (d : GatheredData)
    (cy : Nat) (now : String) (sd : SupabaseGatheredData)
    (r : ComplianceRecord) (hr : r = create_compliance_record ids d cy now)
    (s : ComplianceScores) (hs : s = calculate_compliance_scores sd) :
    (d.hpd_violations = [] → r.hpd_compliance_score = 100) ∧
    (d.dob_violations = [] → r.dob_compliance_score = 100) ∧
    (d.elevator_inspections = [] → r.elevator_compliance_score = 100) ∧
    (d.electrical_permits = [] → r.electrical_compliance_score = 85) ∧
    (sd.hpd_violations = [] → s.hpd_score = 100) ∧
    (sd.dob_violations = [] → s.dob_score = 100) ∧
    (sd.elevator_inspections = [] → s.elevator_score = 100) ∧
    (sd.boiler_inspections = [] → s.boiler_score = 100) := by
  subst hr hs
  simp only [create_compliance_record, calculate_compliance_scores]
  refine ⟨?_, ?_, ?_, ?_, ?_, ?_, ?_, ?_⟩ <;> intro h <;> simp [h]

/-- C3: in both variants every per-category score and the overall score of an
assembled record lie in [0, 100], and the overall score is the fixed-weight
linear combination of the per-category scores — weights 0.3/0.3/0.2/0.2 in the
comprehensive variant and 0.25 each in the supabase variant — with the weights
summing to 1. -/
theorem scores_in_range_and_weighted (ids : PropertyIdentifiers)
    (d : GatheredData) (cy : Nat) (now : String) (sd : SupabaseGatheredData)
    (r : ComplianceRecord) (hr : r = create_compliance_record ids d cy now)
    (s : ComplianceScores) (hs : s = calculate_compliance_scores sd) :
    (0 ≤ r.hpd_compliance_score ∧ r.hpd_compliance_score ≤ 100) ∧
    (0 ≤ r.dob_compliance_score ∧ r.dob_compliance_score ≤ 100) ∧
    (0 ≤ r.elevator_compliance_score ∧ r.elevator_compliance_score ≤ 100) ∧
    (0 ≤ r.electrical_compliance_score ∧ r.electrical_compliance_score ≤ 100) ∧
    (0 ≤ r.overall_compliance_score ∧ r.overall_compliance_score ≤ 100) ∧
    r.overall_compliance_score =
      r.hpd_compliance_score * 0.3 + r.dob_compliance_score * 0.3 +
        r.elevator_compliance_score * 0.2 + r.electrical_compliance_score * 0.2 ∧
    (0.3 + 0.3 + 0.2 + 0.2 : ℚ) = 1 ∧
    (0 ≤ s.hpd_score ∧ s.hpd_score ≤ 100) ∧
    (0 ≤ s.dob_score ∧ s.dob_score ≤ 100) ∧
    (0 ≤ s.elevator_score ∧ s.elevator_score ≤ 100) ∧
    (0 ≤ s.boiler_score ∧ s.boiler_score ≤ 100) ∧
    (0 ≤ s.overall_score ∧ s.overall_score ≤ 100) ∧
    s.overall_score =
      s.hpd_score * 0.25 + s.dob_score * 0.25 + s.elevator_score * 0.25 +
        s.boiler_score * 0.25 ∧
    (0.25 + 0.25 + 0.25 + 0.25 : ℚ) = 1 := by
  subst hr hs
  have h1 := hpd_score_mem ids d cy now
  have h2 := dob_score_mem ids d cy now
  have h3 := elev_score_mem ids d cy now
  have h4 := elec_score_mem ids d cy now
  have g1 := s_hpd_score_mem sd
  have g2 := s_dob_score_mem sd
  have g3 := s_elev_score_mem sd
  have g4 := s_boiler_score_mem sd
  refine ⟨h1, h2, h3, h4, ?_, cr_overall ids d cy now, by norm_num,
    g1, g2, g3, g4, ?_, ccs_overall sd, by norm_num⟩
  · rw [cr_overall]
    constructor
    · have := h1.1; have := h2.1; have := h3.1; have := h4.1
      nlinarith [h1.1, h2.1, h3.1, h4.1]
    · nlinarith [h1.2, h2.2, h3.2, h4.2, h1.1, h2.1, h3.1, h4.1]
  · rw [ccs_overall]
    constructor
    · nlinarith [g1.1, g2.1, g3.1, g4.1]
    · nlinarith [g1.2, g2.2, g3.2, g4.2, g1.1, g2.1, g3.1, g4.1]

/-- C10: in every assembled record, each category's active count is at most
its total count, in both the comprehensive and the supabase variant. -/
theorem active_le_total (ids : PropertyIdentifiers) (d : GatheredData)
    (cy : Nat) (now : String) (info : PropertyInfo) (sd : SupabaseGatheredData)
    (now2 : String)
    (r : ComplianceRecord) (hr : r = create_compliance_record ids d cy now)
    (s : SupabaseRecord) (hs : s = structure_for_supabase info sd now2) :
    r.hpd_violations_active ≤ r.hpd_violations_total ∧
    r.dob_violations_active ≤ r.dob_violations_total ∧
    r.elevator_devices_active ≤ r.elevator_devices_total ∧
    r.electrical_permits_active ≤ r.electrical_permits_total ∧
    s.hpd_violations_active ≤ s.hpd_violations_total ∧
    s.dob_violations_active ≤ s.dob_violations_total ∧
    s.elevator_devices_active ≤ s.elevator_devices_total := by
  subst hr hs
  simp only [create_compliance_record, structure_for_supabase]
  exact ⟨List.length_filter_le _ _, List.length_filter_le _ _,
    List.length_filter_le _ _, List.length_filter_le _ _,
    List.length_filter_le _ _, List.length_filter_le _ _,
    List.length_filter_le _ _⟩

/-- An oracle whose every query succeeds with an empty result set. -/
def emptyOracle : Oracle := fun _ => some []

lemma fallback_property_search_none (address : String) (oracle : Oracle)
    (h : ∀ q, oracle q = none ∨ oracle q = some []) :
    fallback_property_search address oracle = none := by
  unfold fallback_property_search
  rcases h (fallbackQueryOf address) with h1 | h1 <;> rw [h1]

/-- C5: when both the primary GeoSearch lookup and the HPD-violations
fallback yield nothing, the pipeline still returns the complete empty record:
input address preserved, every identifier `none`, every count 0, every score
(including overall) 100, and provenance "FAILED". -/
theorem failed_resolution_neutral_record (address now : String) (cy : Nat)
    (geoResp : GeoResponse) (oracle : Oracle)
    (hgeo : geo_get_property_identifiers geoResp = none)
    (horacle : ∀ q, oracle q = none ∨ oracle q = some []) :
    process_property address geoResp oracle cy now =
      create_empty_record address now ∧
    (process_property address geoResp oracle cy now).address = address ∧
    (process_property address geoResp oracle cy now).bin = none ∧
    (process_property address geoResp oracle cy now).bbl = none ∧
    (process_property address geoResp oracle cy now).borough = none ∧
    (process_property address geoResp oracle cy now).block = none ∧
    (process_property address geoResp oracle cy now).lot = none ∧
    (process_property address geoResp oracle cy now).zip_code = none ∧
    (process_property address geoResp oracle cy now).hpd_violations_total = 0 ∧
    (process_property address geoResp oracle cy now).hpd_violations_active = 0 ∧
    (process_property address geoResp oracle cy now).dob_violations_total = 0 ∧
    (process_property address geoResp oracle cy now).dob_violations_active = 0 ∧
    (process_property address geoResp oracle cy now).elevator_devices_total = 0 ∧
    (process_property address geoResp oracle cy now).elevator_devices_active = 0 ∧
    (process_property address geoResp oracle cy now).boiler_devices_total = 0 ∧
    (process_property address geoResp oracle cy now).electrical_permits_total = 0 ∧
    (process_property address geoResp oracle cy now).electrical_permits_active = 0 ∧
    (process_property address geoResp oracle cy now).hpd_compliance_score = 100 ∧
    (process_property address geoResp oracle cy now).dob_compliance_score = 100 ∧
    (process_property address geoResp oracle cy now).elevator_compliance_score = 100 ∧
    (process_property address geoResp oracle cy now).electrical_compliance_score = 100 ∧
    (process_property address geoResp oracle cy now).overall_compliance_score = 100 ∧
    (process_property address geoResp oracle cy now).data_sources = "FAILED" := by
  have hres : get_property_identifiers geoResp address oracle = none := by
    unfold get_property_identifiers
    rw [hgeo]
    exact fallback_property_search_none address oracle horacle
  have hpp : process_property address geoResp oracle cy now =
      create_empty_record address now := by
    unfold process_property
    rw [hres]
  rw [hpp]
  exact ⟨rfl, rfl, rfl, rfl, rfl, rfl, rfl, rfl, rfl, rfl, rfl, rfl, rfl, rfl,
    rfl, rfl, rfl, rfl, rfl, rfl, rfl, rfl, rfl⟩

/-- Witness for C5 at a concrete failed resolution. -/
theorem failed_resolution_neutral_record_witness :
    process_property "200 UNKNOWN ROAD" GeoResponse.failure emptyOracle 2025 "ts" =
      create_empty_record "200 UNKNOWN ROAD" "ts" :=
  (failed_resolution_neutral_record "200 UNKNOWN ROAD" "ts" 2025
    GeoResponse.failure emptyOracle rfl (fun _ => Or.inr rfl)).1

/-- C6: the boiler searcher issues at most one query, only when a (truthy)
BIN is present, always against the boiler dataset filtering solely on
`bin_number`; with no BIN it issues no query and leaves the category empty. -/
lemma gather_boiler_attempts (ids : PropertyIdentifiers) (oracle : Oracle) :
    (gather_boiler_data ids oracle).2 =
      if truthy ids.bin then [boilerBinQuery (ids.bin.getD "")] else [] := by
  unfold gather_boiler_data
  by_cases hb : truthy ids.bin = true
  · simp only [hb, if_true]
    cases hO : oracle (boilerBinQuery (ids.bin.getD "")) with
    | some rows => split <;> (try split) <;> rfl
    | none => rfl
  · have hb' : truthy ids.bin = false := by
      cases h : truthy ids.bin
      · rfl
      · exact absurd h hb
    simp [hb']

lemma gather_boiler_no_bin (ids : PropertyIdentifiers) (oracle : Oracle)
    (hb : truthy ids.bin = false) : gather_boiler_data ids oracle = ([], []) := by
  unfold gather_boiler_data
  simp [hb]

theorem boiler_single_bin_query (ids : PropertyIdentifiers) (oracle : Oracle) :
    (gather_boiler_data ids oracle).2.length ≤ 1 ∧
    (∀ q ∈ (gather_boiler_data ids oracle).2,
      truthy ids.bin = true ∧ q.dataset = "boiler_inspections" ∧
      q.filter = [FilterAtom.eq "bin_number" (ids.bin.getD "")] ∧
      q.filter.map FilterAtom.field = ["bin_number"]) ∧
    (truthy ids.bin = false →
      (gather_boiler_data ids oracle).2 = [] ∧
      (gather_boiler_data ids oracle).1 = []) := by
  by_cases hb : truthy ids.bin = true
  · rw [gather_boiler_attempts, if_pos hb]
    refine ⟨by norm_num, ?_, ?_⟩
    · intro q hq
      rw [List.mem_singleton] at hq
      subst hq
      exact ⟨hb, rfl, rfl, rfl⟩
    · intro hfalse
      rw [hb] at hfalse
      exact Bool.noConfusion hfalse
  · have hb' : truthy ids.bin = false := by
      cases h : truthy ids.bin
      · rfl
      · exact absurd h hb
    rw [gather_boiler_no_bin ids oracle hb']
    refine ⟨by simp, ?_, fun _ => ⟨rfl, rfl⟩⟩
    intro q hq
    exact absurd hq (List.not_mem_nil q)

/-- Witness for C6: with no BIN, no boiler query is issued. -/
theorem boiler_single_bin_query_witness :
    (gather_boiler_data { address := "1 MAIN ST" } emptyOracle).2 = [] ∧
    (gather_boiler_data { address := "1 MAIN ST" } emptyOracle).1 = [] :=
  (boiler_single_bin_query { address := "1 MAIN ST" } emptyOracle).2.2 rfl

/-- C7 counterexample: on a transport failure `get_data` returns the ordinary
value `None` — it does not fail with a retrievable error. -/
theorem get_data_transport_failure_returns_none :
    get_data "hpd_violations" (fun _ => TransportOutcome.networkError) =
      Except.ok none ∧
    ¬ ∃ e, get_data "hpd_violations" (fun _ => TransportOutcome.networkError) =
      Except.error e := by
  have h1 : get_data "hpd_violations" (fun _ => TransportOutcome.networkError) =
      Except.ok none := by rfl
  refine ⟨h1, ?_⟩
  rintro ⟨e, h⟩
  rw [h1] at h
  exact Except.noConfusion h

/-- C7 (amended): for a known dataset key, a transport failure (network
error, timeout or upstream error status) makes `get_data` return `None` —
caught, not raised — a successful transport returns the rows, and the result
depends only on the first (single) transport attempt: no retry happens at
this layer. -/
theorem get_data_failure_semantics (key : String) (hkey : key ∈ nycDatasets)
    (attempts attempts2 : Nat → TransportOutcome) :
    (attempts 0 = TransportOutcome.networkError ∨
        attempts 0 = TransportOutcome.timeout ∨
        (∃ s, attempts 0 = TransportOutcome.httpError s) →
      get_data key attempts = Except.ok none) ∧
    (∀ rows, attempts 0 = TransportOutcome.success rows →
      get_data key attempts = Except.ok (some rows)) ∧
    (attempts2 0 = attempts 0 → get_data key attempts2 = get_data key attempts) := by
  refine ⟨?_, ?_, ?_⟩
  · rintro (h | h | ⟨s, h⟩) <;> simp [get_data, hkey, h]
  · intro rows h
    simp [get_data, hkey, h]
  · intro h
    unfold get_data
    rw [h]

/-- Witness for C7's amended statement at a concrete network failure. -/
theorem get_data_failure_semantics_witness :
    get_data "hpd_violations" (fun _ => TransportOutcome.networkError) =
      Except.ok none :=
  (get_data_failure_semantics "hpd_violations" (by decide)
    (fun _ => TransportOutcome.networkError)
    (fun _ => TransportOutcome.networkError)).1 (Or.inl rfl)

/-- Witness for C2's amended statement on concrete empty categories. -/
theorem empty_category_scores_witness :
    (create_compliance_record { address := "1 MAIN ST" } {} 2025 "t").hpd_compliance_score = 100 :=
  (empty_category_scores { address := "1 MAIN ST" } {} 2025 "t" {}
    (create_compliance_record { address := "1 MAIN ST" } {} 2025 "t") rfl
    (calculate_compliance_scores {}) rfl).1 rfl

/-- Witness for C3 at a concrete record. -/
theorem scores_in_range_and_weighted_witness :
    0 ≤ (create_compliance_record { address := "1 MAIN ST" } {} 2025 "t").hpd_compliance_score ∧
    (create_compliance_record { address := "1 MAIN ST" } {} 2025 "t").hpd_compliance_score ≤ 100 :=
  (scores_in_range_and_weighted { address := "1 MAIN ST" } {} 2025 "t" {}
    (create_compliance_record { address := "1 MAIN ST" } {} 2025 "t") rfl
    (calculate_compliance_scores {}) rfl).1

/-- Witness for C4: the concrete 5-total/2-active case scores 80. -/
theorem violation_penalty_scores_witness :
    (create_compliance_record { address := "1 MAIN ST" } fiveTwoData 2025 "t").hpd_compliance_score = 80 :=
  (violation_penalty_scores { address := "1 MAIN ST" } fiveTwoData 2025 "t" {} {} "t"
    (create_compliance_record { address := "1 MAIN ST" } fiveTwoData 2025 "t") rfl
    (structure_for_supabase {} {} "t") rfl).2.2.2.2.2.2.2.2.2.2

/-- Witness for C10 at a concrete record. -/
theorem active_le_total_witness :
    (create_compliance_record { address := "1 MAIN ST" } fiveTwoData 2025 "t").hpd_violations_active ≤
      (create_compliance_record { address := "1 MAIN ST" } fiveTwoData 2025 "t").hpd_violations_total :=
  (active_le_total { address := "1 MAIN ST" } fiveTwoData 2025 "t" {} {} "t"
    (create_compliance_record { address := "1 MAIN ST" } fiveTwoData 2025 "t") rfl
    (structure_for_supabase {} {} "t") rfl).1

/-! ## Block/lot derivation from the composite BBL (claims about the
primary geocoding lookup) -/

/-- A GeoSearch feature whose BBL has interior and trailing zeros. -/
def trailingZeroProps : GeoProperties := { pad := { bbl := some "1001500100" } }

/-- C8 counterexample: for BBL `1001500100` the code exposes block `150`
(leading zeros of `00150` stripped), while stripping trailing zeros of the
same substring would give `0015`. -/
theorem block_not_trailing_stripped :
    Option.bind (geo_get_property_identifiers (GeoResponse.feature trailingZeroProps))
        PropertyIdentifiers.block = some "150" ∧
    String.mk (specStripTrailingZeros ((("1001500100" : String).toList.drop 1).take 5)) = "0015" ∧
    ("150" : String) ≠ "0015" := by
  refine ⟨rfl, rfl, by decide⟩

/-- C8 (amended): for every BBL of at least 10 characters returned by the
primary lookup, block is the substring at positions 2–6 and lot the substring
from position 7 onward, each exposed with its LEADING zeros stripped. -/
theorem bbl_block_lot_leading_zeros (props : GeoProperties) (b : String)
    (hb : props.pad.bbl = some b) (hlen : 10 ≤ b.length) :
    ∃ ids, geo_get_property_identifiers (GeoResponse.feature props) = some ids ∧
      ids.block = some (String.mk (((b.toList.drop 1).take 5).dropWhile (fun c => c == '0'))) ∧
      ids.lot = some (String.mk ((b.toList.drop 6).dropWhile (fun c => c == '0'))) := by
  have hne : b ≠ "" := by
    intro h
    subst h
    simp at hlen
  have heq : geo_get_property_identifiers (GeoResponse.feature props) =
      some { address := ((props.housenumber.getD "") ++ " " ++ (props.street.getD "")).trim
             bin := props.pad.bin
             bbl := some b
             borough := geoBoroughMap props.borough
             block := some (bblBlock b)
             lot := some (bblLot b)
             zip_code := props.postalcode } := by
    simp only [geo_get_property_identifiers, hb]
    rw [if_pos ⟨hne, hlen⟩]
  exact ⟨_, heq, rfl, rfl⟩

/-- Witness for C8's amended statement at the concrete BBL `1001500100`. -/
theorem bbl_block_lot_leading_zeros_witness :
    ∃ ids, geo_get_property_identifiers (GeoResponse.feature trailingZeroProps) = some ids ∧
      ids.block = some (String.mk (((("1001500100" : String)).toList.drop 1).take 5
        |>.dropWhile (fun c => c == '0'))) ∧
      ids.lot = some (String.mk ((("1001500100" : String)).toList.drop 6
        |>.dropWhile (fun c => c == '0'))) :=
  bbl_block_lot_leading_zeros trailingZeroProps "1001500100" rfl (by decide)

lemma replicate_append_dropWhile_zero (l : List Char) :
    List.replicate (l.length - (l.dropWhile (fun c => c == '0')).length) '0' ++
      l.dropWhile (fun c => c == '0') = l := by
  induction l with
  | nil => simp
  | cons c t ih =>
      by_cases h : (c == '0') = true
      · have hc : c = '0' := eq_of_beq h
        have hdw : (c :: t).dropWhile (fun x => x == '0') =
            t.dropWhile (fun x => x == '0') := by
          simp [List.dropWhile_cons, h]
        rw [hdw]
        have hle : (t.dropWhile (fun c => c == '0')).length ≤ t.length :=
          (List.dropWhile_sublist _).length_le
        have harith : (c :: t).length - (t.dropWhile (fun c => c == '0')).length =
            (t.length - (t.dropWhile (fun c => c == '0')).length) + 1 := by
          simp only [List.length_cons]
          omega
        rw [harith, List.replicate_succ, List.cons_append, ih, hc]
      · have hdw : (c :: t).dropWhile (fun x => x == '0') = c :: t := by
          simp [List.dropWhile_cons, h]
        rw [hdw]
        simp

lemma all_digit_of_sublist {l₁ l₂ : List Char} (hs : l₁.Sublist l₂)
    (h : l₂.all Char.isDigit = true) : l₁.all Char.isDigit = true := by
  rw [List.all_eq_true] at *
  intro c hc
  exact h c (hs.mem hc)

/-- C9: for an address resolved by the primary lookup with a well-formed
10-digit BBL, the exposed block and lot are digit strings (non-negative
integers), and left-padding them with zeros back to widths 5 and 4 and
concatenating them after the 1-character borough prefix reconstructs the
original BBL exactly. -/
theorem bbl_roundtrip (props : GeoProperties) (b : String)
    (hb : props.pad.bbl = some b) (hlen : b.toList.length = 10)
    (hdig : b.toList.all Char.isDigit = true) :
    ∃ ids blk lt,
      geo_get_property_identifiers (GeoResponse.feature props) = some ids ∧
      ids.block = some blk ∧ ids.lot = some lt ∧
      blk.toList.all Char.isDigit = true ∧ lt.toList.all Char.isDigit = true ∧
      b.toList = b.toList.take 1 ++
        (List.replicate (5 - blk.toList.length) '0' ++ blk.toList) ++
        (List.replicate (4 - lt.toList.length) '0' ++ lt.toList) := by
  have hlenS : 10 ≤ b.length := by
    have : b.length = 10 := hlen
    omega
  obtain ⟨ids, heq, hblk, hlt⟩ := bbl_block_lot_leading_zeros props b hb hlenS
  refine ⟨ids, _, _, heq, hblk, hlt, ?_, ?_, ?_⟩
  · exact all_digit_of_sublist
      (((List.dropWhile_sublist _).trans (List.take_sublist _ _)).trans
        (List.drop_sublist _ _)) hdig
  · exact all_digit_of_sublist
      ((List.dropWhile_sublist _).trans (List.drop_sublist _ _)) hdig
  · have hblkLen : ((b.toList.drop 1).take 5).length = 5 := by
      rw [List.length_take, List.length_drop, hlen]
      rfl
    have hlotLen : (b.toList.drop 6).length = 4 := by
      rw [List.length_drop, hlen]
    have hpadBlk : List.replicate
          (5 - (((b.toList.drop 1).take 5).dropWhile (fun c => c == '0')).length) '0' ++
          ((b.toList.drop 1).take 5).dropWhile (fun c => c == '0') =
        (b.toList.drop 1).take 5 := by
      have := replicate_append_dropWhile_zero ((b.toList.drop 1).take 5)
      rwa [hblkLen] at this
    have hpadLot : List.replicate
          (4 - ((b.toList.drop 6).dropWhile (fun c => c == '0')).length) '0' ++
          (b.toList.drop 6).dropWhile (fun c => c == '0') =
        b.toList.drop 6 := by
      have := replicate_append_dropWhile_zero (b.toList.drop 6)
      rwa [hlotLen] at this
    show b.toList = b.toList.take 1 ++
        (List.replicate
            (5 - (((b.toList.drop 1).take 5).dropWhile (fun c => c == '0')).length) '0' ++
          ((b.toList.drop 1).take 5).dropWhile (fun c => c == '0')) ++
        (List.replicate
            (4 - ((b.toList.drop 6).dropWhile (fun c => c == '0')).length) '0' ++
          (b.toList.drop 6).dropWhile (fun c => c == '0'))
    rw [hpadBlk, hpadLot]
    rw [List.append_assoc]
    have hdecomp : (b.toList.drop 1).take 5 ++ b.toList.drop 6 = b.toList.drop 1 := by
      have := List.drop_take_append_drop b.toList 1 5
      simpa using this
    rw [hdecomp, List.take_append_drop]

/-! ## Claim C1: strategy order, skipping, and first-hit termination -/

lemma searchStrategies_cons_hit (oracle : Oracle) (q : Query) (rest : List Query)
    (rows : List Row) (h : oracle q = some rows) (hr : rows.length > 0) :
    searchStrategies oracle (q :: rest) = (rows, [q]) := by
  simp only [searchStrategies, h]
  rw [if_pos hr]

lemma searchStrategies_cons_miss (oracle : Oracle) (q : Query) (rest : List Query)
    (rows : List Row) (h : oracle q = some rows) (hr : ¬ rows.length > 0) :
    searchStrategies oracle (q :: rest) =
      ((searchStrategies oracle rest).1, q :: (searchStrategies oracle rest).2) := by
  simp only [searchStrategies, h]
  rw [if_neg hr]

lemma searchStrategies_cons_err (oracle : Oracle) (q : Query) (rest : List Query)
    (h : oracle q = none) :
    searchStrategies oracle (q :: rest) =
      ((searchStrategies oracle rest).1, q :: (searchStrategies oracle rest).2) := by
  simp only [searchStrategies, h]

lemma step_cons_eq (oracle : Oracle) (q : Query) (next : List Row × List Query)
    (L : List Query) (hnext : next = searchStrategies oracle L) :
    (match oracle q with
     | some rows => if rows.length > 0 then (rows, [q]) else (next.1, q :: next.2)
     | none => (next.1, q :: next.2)) = searchStrategies oracle (q :: L) := by
  subst hnext
  cases hO : oracle q with
  | some rows =>
      show (if rows.length > 0 then (rows, [q])
          else ((searchStrategies oracle L).1, q :: (searchStrategies oracle L).2)) =
        searchStrategies oracle (q :: L)
      by_cases hr : rows.length > 0
      · rw [searchStrategies_cons_hit oracle q L rows hO hr, if_pos hr]
      · rw [searchStrategies_cons_miss oracle q L rows hO hr, if_neg hr]
  | none =>
      show ((searchStrategies oracle L).1, q :: (searchStrategies oracle L).2) =
        searchStrategies oracle (q :: L)
      rw [searchStrategies_cons_err oracle q L hO]

lemma searchStrategies_attempts_prefix (oracle : Oracle) (qs : List Query) :
    (searchStrategies oracle qs).2 <+: qs := by
  induction qs with
  | nil => exact ⟨[], rfl⟩
  | cons q rest ih =>
      cases hO : oracle q with
      | some rows =>
          by_cases hr : rows.length > 0
          · rw [searchStrategies_cons_hit oracle q rest rows hO hr]
            exact ⟨rest, rfl⟩
          · rw [searchStrategies_cons_miss oracle q rest rows hO hr]
            obtain ⟨t, ht⟩ := ih
            exact ⟨t, by rw [List.cons_append, ht]⟩
      | none =>
          rw [searchStrategies_cons_err oracle q rest hO]
          obtain ⟨t, ht⟩ := ih
          exact ⟨t, by rw [List.cons_append, ht]⟩

lemma searchStrategies_hit_is_last (oracle : Oracle) (qs : List Query)
    (q : Query) (rows : List Row) (hq : q ∈ (searchStrategies oracle qs).2)
    (hO2 : oracle q = some rows) (hne : rows ≠ []) :
    (searchStrategies oracle qs).2.getLast? = some q ∧
      (searchStrategies oracle qs).1 = rows := by
  induction qs with
  | nil => exact absurd hq (List.not_mem_nil q)
  | cons q0 rest ih =>
      cases hO : oracle q0 with
      | some rows0 =>
          by_cases hr : rows0.length > 0
          · rw [searchStrategies_cons_hit oracle q0 rest rows0 hO hr] at hq ⊢
            rw [List.mem_singleton] at hq
            subst hq
            rw [hO] at hO2
            cases Option.some.inj hO2
            exact ⟨rfl, rfl⟩
          · rw [searchStrategies_cons_miss oracle q0 rest rows0 hO hr] at hq ⊢
            rcases List.mem_cons.mp hq with rfl | hq2
            · rw [hO] at hO2
              cases Option.some.inj hO2
              exact absurd (List.length_eq_zero.mp (Nat.eq_zero_of_not_pos hr)) hne
            · obtain ⟨hlast, hres⟩ := ih hq2
              refine ⟨?_, hres⟩
              cases ha : (searchStrategies oracle rest).2 with
              | nil => rw [ha] at hlast; exact absurd hlast (by simp)
              | cons x t =>
                  rw [ha] at hlast
                  show (q0 :: x :: t).getLast? = some q
                  rw [List.getLast?_cons_cons]
                  exact hlast
      | none =>
          rw [searchStrategies_cons_err oracle q0 rest hO] at hq ⊢
          rcases List.mem_cons.mp hq with rfl | hq2
          · rw [hO] at hO2
            exact Option.noConfusion hO2
          · obtain ⟨hlast, hres⟩ := ih hq2
            refine ⟨?_, hres⟩
            cases ha : (searchStrategies oracle rest).2 with
            | nil => rw [ha] at hlast; exact absurd hlast (by simp)
            | cons x t =>
                rw [ha] at hlast
                show (q0 :: x :: t).getLast? = some q
                rw [List.getLast?_cons_cons]
                exact hlast

lemma searchStrategies_exhaust (oracle : Oracle) (qs : List Query)
    (hres : (searchStrategies oracle qs).1 = []) :
    (searchStrategies oracle qs).2 = qs := by
  induction qs with
  | nil => rfl
  | cons q rest ih =>
      cases hO : oracle q with
      | some rows =>
          by_cases hr : rows.length > 0
          · rw [searchStrategies_cons_hit oracle q rest rows hO hr] at hres
            have hrows : rows = [] := hres
            rw [hrows] at hr
            simp at hr
          · rw [searchStrategies_cons_miss oracle q rest rows hO hr] at hres ⊢
            rw [ih hres]
      | none =>
          rw [searchStrategies_cons_err oracle q rest hO] at hres ⊢
          rw [ih hres]

lemma bool_eq_false_of_not {b : Bool} (h : ¬ b = true) : b = false := by
  cases hb : b
  · rfl
  · exact absurd hb h

lemma hpdAddressStep_eq (ids : PropertyIdentifiers) (oracle : Oracle) :
    hpdAddressStep ids oracle = searchStrategies oracle
      (if (ids.address.splitOn " ").length ≥ 2 then
        [hpdAddressQuery ((ids.address.splitOn " ").headD "")
          (String.intercalate " " (ids.address.splitOn " ").tail)]
      else []) := by
  simp only [hpdAddressStep]
  by_cases h : (ids.address.splitOn " ").length ≥ 2
  · rw [if_pos h, if_pos h]
    exact step_cons_eq oracle _ ([], []) [] rfl
  · rw [if_neg h, if_neg h]
    rfl

lemma hpdBlockLotStep_eq (ids : PropertyIdentifiers) (oracle : Oracle) :
    hpdBlockLotStep ids oracle = searchStrategies oracle
      ((if truthy ids.borough && truthy ids.block && truthy ids.lot then
          [hpdBlockLotQuery (ids.borough.getD "") (ids.block.getD "")
            (ids.lot.getD "")]
        else []) ++
       (if (ids.address.splitOn " ").length ≥ 2 then
          [hpdAddressQuery ((ids.address.splitOn " ").headD "")
            (String.intercalate " " (ids.address.splitOn " ").tail)]
        else [])) := by
  simp only [hpdBlockLotStep]
  by_cases h : (truthy ids.borough && truthy ids.block && truthy ids.lot) = true
  · rw [if_pos h, if_pos h, List.cons_append, List.nil_append]
    exact step_cons_eq oracle _ (hpdAddressStep ids oracle) _
      (hpdAddressStep_eq ids oracle)
  · have h2 : (truthy ids.borough && truthy ids.block && truthy ids.lot) = false :=
      bool_eq_false_of_not h
    rw [if_neg h, if_neg h, List.nil_append]
    exact hpdAddressStep_eq ids oracle

lemma gather_hpd_violations_eq (ids : PropertyIdentifiers) (oracle : Oracle) :
    gather_hpd_violations ids oracle =
      searchStrategies oracle (hpdStrategyQueries ids) := by
  simp only [gather_hpd_violations, hpdStrategyQueries]
  by_cases h : truthy ids.bin = true
  · rw [if_pos h, if_pos h, List.cons_append, List.nil_append]
    exact step_cons_eq oracle _ (hpdBlockLotStep ids oracle) _
      (hpdBlockLotStep_eq ids oracle)
  · rw [if_neg h, if_neg h, List.nil_append]
    exact hpdBlockLotStep_eq ids oracle

lemma dobAddressStep_eq (ids : PropertyIdentifiers) (oracle : Oracle) :
    dobAddressStep ids oracle = searchStrategies oracle
      (if (ids.address.splitOn " ").length ≥ 2 then
        [dobAddressQuery ((ids.address.splitOn " ").headD "")
          (String.intercalate " " (ids.address.splitOn " ").tail)]
      else []) := by
  simp only [dobAddressStep]
  by_cases h : (ids.address.splitOn " ").length ≥ 2
  · rw [if_pos h, if_pos h]
    exact step_cons_eq oracle _ ([], []) [] rfl
  · rw [if_neg h, if_neg h]
    rfl

lemma dobBlockLotStep_eq (ids : PropertyIdentifiers) (oracle : Oracle) :
    dobBlockLotStep ids oracle = searchStrategies oracle
      ((if truthy ids.borough && truthy ids.block && truthy ids.lot then
          [dobBlockLotQuery (ids.borough.getD "") (ids.block.getD "")
            (ids.lot.getD "")]
        else []) ++
       (if (ids.address.splitOn " ").length ≥ 2 then
          [dobAddressQuery ((ids.address.splitOn " ").headD "")
            (String.intercalate " " (ids.address.splitOn " ").tail)]
        else [])) := by
  simp only [dobBlockLotStep]
  by_cases h : (truthy ids.borough && truthy ids.block && truthy ids.lot) = true
  · rw [if_pos h, if_pos h, List.cons_append, List.nil_append]
    exact step_cons_eq oracle _ (dobAddressStep ids oracle) _
      (dobAddressStep_eq ids oracle)
  · rw [if_neg h, if_neg h, List.nil_append]
    exact dobAddressStep_eq ids oracle

lemma gather_dob_violations_eq (ids : PropertyIdentifiers) (oracle : Oracle) :
    gather_dob_violations ids oracle =
      searchStrategies oracle (dobStrategyQueries ids) := by
  simp only [gather_dob_violations, dobStrategyQueries]
  by_cases h : truthy ids.bin = true
  · rw [if_pos h, if_pos h, List.cons_append, List.nil_append]
    exact step_cons_eq oracle _ (dobBlockLotStep ids oracle) _
      (dobBlockLotStep_eq ids oracle)
  · rw [if_neg h, if_neg h, List.nil_append]
    exact dobBlockLotStep_eq ids oracle

/-- C1: the HPD and DOB searchers equal the spec's generic fallback loop run
on their declared strategy order with ineligible strategies skipped; and for
that loop, the attempted queries form a prefix of the eligible list in
declared order, an attempt returning at least one row is always the last
attempt and its rows are the result, and only when no attempt hits is every
eligible strategy attempted. -/
theorem strategy_cascade_first_hit (ids : PropertyIdentifiers) (oracle : Oracle) :
    gather_hpd_violations ids oracle =
      searchStrategies oracle (hpdStrategyQueries ids) ∧
    gather_dob_violations ids oracle =
      searchStrategies oracle (dobStrategyQueries ids) ∧
    (∀ qs : List Query, (searchStrategies oracle qs).2 <+: qs) ∧
    (∀ (qs : List Query) (q : Query) (rows : List Row),
      q ∈ (searchStrategies oracle qs).2 → oracle q = some rows → rows ≠ [] →
      (searchStrategies oracle qs).2.getLast? = some q ∧
        (searchStrategies oracle qs).1 = rows) ∧
    (∀ qs : List Query, (searchStrategies oracle qs).1 = [] →
      (searchStrategies oracle qs).2 = qs) :=
  ⟨gather_hpd_violations_eq ids oracle, gather_dob_violations_eq ids oracle,
    searchStrategies_attempts_prefix oracle,
    fun qs q rows => searchStrategies_hit_is_last oracle qs q rows,
    searchStrategies_exhaust oracle⟩

/-- A fully-populated identifier set for exercising the strategy loop. -/
def cascadeWitnessIds : PropertyIdentifiers :=
  { address := "140 WEST 28TH STREET"
    bin := some "1089510"
    borough := some "MANHATTAN"
    block := some "803"
    lot := some "58" }

/-- Witness for C1: with every strategy returning zero rows, the loop
attempts the whole eligible strategy list of a fully-populated identifier
set. -/
theorem strategy_cascade_first_hit_witness :
    (searchStrategies emptyOracle [hpdBinQuery "1089510"]).2 =
      [hpdBinQuery "1089510"] :=
  (strategy_cascade_first_hit cascadeWitnessIds emptyOracle).2.2.2.2
    [hpdBinQuery "1089510"] (by rfl)

/-- A GeoSearch feature with a well-formed 10-digit BBL. -/
def roundtripProps : GeoProperties := { pad := { bbl := some "3012340056" } }

/-- Witness for C9 at the concrete BBL `3012340056`. -/
theorem bbl_roundtrip_witness :
    ∃ ids blk lt,
      geo_get_property_identifiers (GeoResponse.feature roundtripProps) = some ids ∧
      ids.block = some blk ∧ ids.lot = some lt ∧
      blk.toList.all Char.isDigit = true ∧ lt.toList.all Char.isDigit = true ∧
      ("3012340056" : String).toList = ("3012340056" : String).toList.take 1 ++
        (List.replicate (5 - blk.toList.length) '0' ++ blk.toList) ++
        (List.replicate (4 - lt.toList.length) '0' ++ lt.toList) :=
  bbl_roundtrip roundtripProps "3012340056" rfl (by decide) (by decide)
